import Mathlib

/-!
Shallow embedding of `pipeline/archivebot/seesaw/tasks.py` (ArchiveBot seesaw
pipeline stages).

Modelling conventions:
* A seesaw work item is a Python dict-like object with extra fields.  We model
  it as an association list of string keys to `Value`s together with the
  `may_be_canceled` and `canceled` flags and the append-only output log.
* The tornado IOLoop is modelled by recording, in each `process` result, the
  list of retry delays registered via `add_timeout` (the list has one entry
  per `schedule_retry` call).
* `complete_item` (advance to the next pipeline stage) is modelled by the
  `completed` flag of a `ProcessResult`.
* Calls into the external control service (`reserve_job`, `is_aborted`,
  `set_warc_size`, `mark_done`) are inputs to `process`, given as
  `Except ConnectionError _` values: `.error` is the Python
  `ConnectionError` raised by the control client, which the retryable tasks
  catch.
* Python `'...%(key)s...' % item` formatting is modelled by `Item.getS`,
  which returns the `str()` of the stored value (and `""` for a missing key;
  every theorem below only uses it with the key present).
* Python `item[key]` reads (`__getitem__`, which raises `KeyError` when the
  key is missing) are modelled with `Option`: a stage whose body performs
  such a read returns `none` when the key is absent.
* `time.strftime("%Y%m%d-%H%M%S")` and the filesystem calls in
  `PreparePaths` are external effects; the timestamp string is a parameter
  of `PreparePaths.process`, and `json.dumps`/`open` in `WriteInfo` are
  modelled by returning the target path and the record that is serialized.
-/

namespace ArchiveBot

/-- A Python value stored in a work item's attribute dictionary: the values
that occur in `tasks.py` are strings, booleans, `None`, the heartbeat timer
handle, and the `info` dict. -/
inductive Value where
  | vstr : String → Value
  | vbool : Bool → Value
  | vnone : Value
  | vtimer : Nat → Value
  | vdict : List (String × Value) → Value

/-- Python `str()` of a stored value, as used by `%`-formatting.  Only
`vstr` values are ever formatted by the code paths proved below. -/
def Value.pystr : Value → String
  | .vstr s => s
  | .vbool true => "True"
  | .vbool false => "False"
  | .vnone => "None"
  | .vtimer n => "<timer " ++ toString n ++ ">"
  | .vdict _ => "<dict>"

/-- Python `v == "lit"` for a string literal: true exactly when `v` is that
string (a non-string value compares unequal to a string in Python). -/
def Value.isStrEq (v : Value) (s : String) : Bool :=
  match v with
  | .vstr t => t = s
  | _ => false

/-- Dictionary lookup on the attribute association list (first match). -/
def lookupAttr : List (String × Value) → String → Option Value
  | [], _ => none
  | (k, v) :: t, key => if k = key then some v else lookupAttr t key

/-- Dictionary store `d[key] = v`: replace the binding if present, else
append it. -/
def setAttr : List (String × Value) → String → Value → List (String × Value)
  | [], key, v => [(key, v)]
  | (k, w) :: t, key, v =>
      if k = key then (key, v) :: t else (k, w) :: setAttr t key v

/-- Dictionary delete `del d[key]`. -/
def delAttr : List (String × Value) → String → List (String × Value)
  | [], _ => []
  | (k, w) :: t, key =>
      if k = key then delAttr t key else (k, w) :: delAttr t key

/-- A seesaw work item: the attribute dictionary, the cancellation flags
read and written by `RetryableTask`, and the appended output log. -/
structure Item where
  attrs : List (String × Value)
  may_be_canceled : Bool
  canceled : Bool
  log : List String

/-- Python `item[key]` when used as a total read would raise `KeyError` on a
missing key; this is the `Option`-valued lookup. -/
def Item.get? (item : Item) (key : String) : Option Value :=
  lookupAttr item.attrs key

/-- Python `item[key] = v`. -/
def Item.set (item : Item) (key : String) (v : Value) : Item :=
  { item with attrs := setAttr item.attrs key v }

/-- Python `del item[key]`. -/
def Item.del (item : Item) (key : String) : Item :=
  { item with attrs := delAttr item.attrs key }

/-- Python `key in item`. -/
def Item.hasKey (item : Item) (key : String) : Bool :=
  (item.get? key).isSome

/-- The string a `%(key)s` conversion produces for this item: `str()` of the
stored value (and `""` for a missing key, where Python would raise). -/
def Item.getS (item : Item) (key : String) : String :=
  ((item.get? key).map Value.pystr).getD ""

/-- `item.log_output(line)`: append one line to the item's output log. -/
def Item.log_output (item : Item) (line : String) : Item :=
  { item with log := item.log ++ [line] }

/-- The `ConnectionError` raised by the ArchiveBot control client. -/
structure ConnectionError where
  msg : String

/-- The `(ident, job_data)` descriptor dictionary returned by
`reserve_job`; `job_data.get(key)` returns `None` for a missing key. -/
abbrev JobData := List (String × Value)

/-- Python `job_data.get(key)`: the stored value, or `None`. -/
def JobData.get (jd : JobData) (key : String) : Value :=
  (lookupAttr jd key).getD Value.vnone

/-- The per-instance policy constants of a `RetryableTask`: its display name
(`str(self)`), `retry_delay` (seconds) and `cancelable`.  The class defaults
are `retry_delay = 5`, `cancelable = False`. -/
structure RetryableTaskCfg where
  name : String
  retry_delay : Nat
  cancelable : Bool

/-- The outcome of one `process(item)` call: the updated item, whether
`complete_item` was called (the item advances to the next stage), and the
delays of the retries registered on the IOLoop by `schedule_retry`. -/
structure ProcessResult where
  item : Item
  completed : Bool
  scheduled : List Nat

/-- `RetryableTask.schedule_retry`: set `may_be_canceled` to the task's
`cancelable` policy and register one IOLoop timeout of `retry_delay`
seconds that will call `retry`. -/
def RetryableTask.schedule_retry (cfg : RetryableTaskCfg) (item : Item) :
    Item × List Nat :=
  ({ item with may_be_canceled := cfg.cancelable }, [cfg.retry_delay])

/-- `RetryableTask.retry`, the timeout callback: if the item was canceled in
the interim, do nothing; otherwise clear `may_be_canceled` and run `process`
again.  The boolean of the result records whether `process` was invoked. -/
def RetryableTask.retry (proc : Item → ProcessResult) (item : Item) :
    ProcessResult × Bool :=
  if item.canceled then (⟨item, false, []⟩, false)
  else (proc { item with may_be_canceled := false }, true)

/-- `RetryableTask.notify_retry`: log `"<reason>. Retrying <task> in
<retry_delay> seconds."`. -/
def RetryableTask.notify_retry (cfg : RetryableTaskCfg) (reason : String)
    (item : Item) : Item :=
  item.log_output
    (reason ++ ". Retrying " ++ cfg.name ++ " in " ++
      toString cfg.retry_delay ++ " seconds.")

/-- `RetryableTask.notify_connection_error`. -/
def RetryableTask.notify_connection_error (cfg : RetryableTaskCfg)
    (item : Item) : Item :=
  RetryableTask.notify_retry cfg "Lost connection to ArchiveBot controller"
    item

/-- `GetItemFromQueue.__init__`: the constructor takes `retry_delay`
(defaulting to 5) and sets `cancelable = True`; it is the only stage that
overrides the `cancelable = False` class default. -/
def GetItemFromQueue.mkCfg (retry_delay : Nat) : RetryableTaskCfg :=
  ⟨"GetItemFromQueue", retry_delay, true⟩

/-- The default value of `GetItemFromQueue.__init__`'s `retry_delay`. -/
def GetItemFromQueue.default_retry_delay : Nat := 5

/-- `RelabelIfAborted.__init__` keeps the class defaults. -/
def RelabelIfAborted.cfg : RetryableTaskCfg :=
  ⟨"RelabelIfAborted", 5, false⟩

/-- `SetWarcFileSizeInRedis.__init__` keeps the class defaults. -/
def SetWarcFileSizeInRedis.cfg : RetryableTaskCfg :=
  ⟨"SetWarcFileSizeInRedis", 5, false⟩

/-- `MarkItemAsDone.__init__` keeps the class defaults. -/
def MarkItemAsDone.cfg : RetryableTaskCfg :=
  ⟨"MarkItemAsDone", 5, false⟩

/-- `GetItemFromQueue.process`: `reserved` is the outcome of
`self.control.reserve_job(self.pipeline_id).get()` — a `ConnectionError`,
or a pair of an optional ident and the job-data dict. -/
def GetItemFromQueue.process (pipeline_id : String) (cfg : RetryableTaskCfg)
    (reserved : Except ConnectionError (Option String × JobData))
    (item : Item) : ProcessResult :=
  match reserved with
  | .error _ =>
      let item := RetryableTask.notify_connection_error cfg item
      let (item, scheduled) := RetryableTask.schedule_retry cfg item
      ⟨item, false, scheduled⟩
  | .ok (none, _) =>
      let (item, scheduled) := RetryableTask.schedule_retry cfg item
      ⟨item, false, scheduled⟩
  | .ok (some ident, job_data) =>
      let item := item.set "fetch_depth" (job_data.get "fetch_depth")
      let item := item.set "ident" (Value.vstr ident)
      let item := item.set "log_key" (job_data.get "log_key")
      let item := item.set "pipeline_id" (Value.vstr pipeline_id)
      let item := item.set "queued_at" (job_data.get "queued_at")
      let item := item.set "slug" (job_data.get "slug")
      let item := item.set "started_by" (job_data.get "started_by")
      let item := item.set "started_in" (job_data.get "started_in")
      let item := item.set "url" (job_data.get "url")
      let item := item.log_output ("Received item " ++ ident ++ ".")
      ⟨item, true, []⟩

/-- `SetFetchDepth.process`: translate `item['fetch_depth']` into the
`recursive`/`level`/`depth` wget option triple; `"shallow"` is the sentinel
for a non-recursive fetch.  Returns `none` when `fetch_depth` is missing
(Python `KeyError`). -/
def SetFetchDepth.process (item : Item) : Option Item :=
  match item.get? "fetch_depth" with
  | none => none
  | some depth =>
      if depth.isStrEq "shallow" then
        let item := item.set "recursive" (Value.vstr "")
        let item := item.set "level" (Value.vstr "")
        let item := item.set "depth" (Value.vstr "")
        some item
      else
        let item := item.set "recursive" (Value.vstr "--recursive")
        let item := item.set "level" (Value.vstr "--level")
        let item := item.set "depth" depth
        some item

/-- `TargetPathMixin.set_target_paths`: derive the two target paths under
`data_dir` from the current `warc_file_base`. -/
def TargetPathMixin.set_target_paths (item : Item) : Item :=
  let item := item.set "target_warc_file"
    (Value.vstr (item.getS "data_dir" ++ "/" ++ item.getS "warc_file_base"
      ++ ".warc.gz"))
  let item := item.set "target_info_file"
    (Value.vstr (item.getS "data_dir" ++ "/" ++ item.getS "warc_file_base"
      ++ ".json"))
  item

/-- `PreparePaths.process` with the `time.strftime("%Y%m%d-%H%M%S")` result
passed in as `timestamp`.  The `rmtree`/`makedirs` filesystem reset is an
external effect on `item_dir` and leaves the item itself untouched.
Returns `none` when `ident` or `slug` is missing (Python `KeyError` from
`item['ident']` / the `%s`-tuple formatting of `item['slug']`). -/
def PreparePaths.process (timestamp : String) (item : Item) : Option Item :=
  match item.get? "ident", item.get? "slug" with
  | some identVal, some slugVal =>
      let item_dir := item.getS "data_dir" ++ "/" ++ item.getS "ident"
      let last_five := identVal.pystr.take 5
      let item := item.set "item_dir" (Value.vstr item_dir)
      let item := item.set "warc_file_base"
        (Value.vstr (slugVal.pystr ++ "-" ++ timestamp ++ "-" ++ last_five))
      let item := item.set "source_warc_file"
        (Value.vstr (item.getS "item_dir" ++ "/" ++
          item.getS "warc_file_base" ++ ".warc.gz"))
      let item := item.set "source_info_file"
        (Value.vstr (item.getS "item_dir" ++ "/" ++
          item.getS "warc_file_base" ++ ".json"))
      let item := item.set "cookie_jar"
        (Value.vstr (item.getS "item_dir" ++ "/cookies.txt"))
      some (TargetPathMixin.set_target_paths item)
  | _, _ => none

/-- `RelabelIfAborted.process`: `abortedOutcome` is the outcome of
`self.control.is_aborted(item['ident']).get()`. -/
def RelabelIfAborted.process (cfg : RetryableTaskCfg)
    (abortedOutcome : Except ConnectionError Bool) (item : Item) :
    ProcessResult :=
  match abortedOutcome with
  | .ok true =>
      let item := item.set "aborted" (Value.vbool true)
      let item := item.set "warc_file_base"
        (Value.vstr (item.getS "warc_file_base" ++ "-aborted"))
      let item := TargetPathMixin.set_target_paths item
      let item := item.log_output
        ("Adjusted target WARC path to " ++ item.getS "target_warc_file")
      ⟨item, true, []⟩
  | .ok false => ⟨item, true, []⟩
  | .error _ =>
      let item := RetryableTask.notify_connection_error cfg item
      let (item, scheduled) := RetryableTask.schedule_retry cfg item
      ⟨item, false, scheduled⟩

/-- The `open(path, 'w'); f.write(json.dumps(record, indent=True))` effect
of `WriteInfo`: the path written to and the record serialized there. -/
structure FileWrite where
  path : String
  record : List (String × Value)

/-- `WriteInfo.process`: build the seven-key `info` record (with `aborted`
defaulting to `False` when no prior stage set it), store it on the item,
and write it as JSON to `source_info_file`.  Returns `none` when one of the
six `item[...]` reads or `item['source_info_file']` is missing (Python
`KeyError`). -/
def WriteInfo.process (item : Item) : Option (Item × FileWrite) :=
  let aborted := match item.get? "aborted" with
    | some v => v
    | none => Value.vbool false
  match item.get? "fetch_depth", item.get? "pipeline_id",
      item.get? "queued_at", item.get? "started_by", item.get? "started_in",
      item.get? "url", item.get? "source_info_file" with
  | some fd, some pid, some qa, some sb, some si, some u, some path =>
      let info : List (String × Value) :=
        [("aborted", aborted), ("fetch_depth", fd), ("pipeline_id", pid),
         ("queued_at", qa), ("started_by", sb), ("started_in", si),
         ("url", u)]
      let item := item.set "info" (Value.vdict info)
      some (item, ⟨path.pystr, info⟩)
  | _, _, _, _, _, _, _ => none

/-- `SetWarcFileSizeInRedis.process`: `call` is the outcome of
`self.control.set_warc_size(item['ident'], item['target_warc_file'])`. -/
def SetWarcFileSizeInRedis.process (cfg : RetryableTaskCfg)
    (call : Except ConnectionError Unit) (item : Item) : ProcessResult :=
  match call with
  | .ok _ => ⟨item, true, []⟩
  | .error _ =>
      let item := RetryableTask.notify_connection_error cfg item
      let (item, scheduled) := RetryableTask.schedule_retry cfg item
      ⟨item, false, scheduled⟩

/-- `StopHeartbeat.process`: stop and remove the heartbeat timer handle if
present; otherwise log a warning and continue.  The boolean records whether
a timer's `stop()` was called. -/
def StopHeartbeat.process (item : Item) : Item × Bool :=
  if item.hasKey "heartbeat" then
    (item.del "heartbeat", true)
  else
    (item.log_output "Warning: couldn't find a heartbeat to stop", false)

/-- `MarkItemAsDone.process`: `call` is the outcome of
`self.control.mark_done(item, self.expire_time)`. -/
def MarkItemAsDone.process (cfg : RetryableTaskCfg)
    (call : Except ConnectionError Unit) (item : Item) : ProcessResult :=
  match call with
  | .ok _ => ⟨item, true, []⟩
  | .error _ =>
      let item := RetryableTask.notify_connection_error cfg item
      let (item, scheduled) := RetryableTask.schedule_retry cfg item
      ⟨item, false, scheduled⟩

/-! Dictionary lemmas. -/

theorem lookupAttr_setAttr (l : List (String × Value)) (k k' : String)
    (v : Value) :
    lookupAttr (setAttr l k v) k' =
      if k = k' then some v else lookupAttr l k' := by
  induction l with
  | nil => simp [setAttr, lookupAttr]
  | cons p t ih =>
      obtain ⟨a, w⟩ := p
      by_cases h1 : a = k <;> by_cases h2 : a = k' <;>
        simp_all [setAttr, lookupAttr, eq_comm]

theorem lookupAttr_delAttr (l : List (String × Value)) (k k' : String) :
    lookupAttr (delAttr l k) k' =
      if k = k' then none else lookupAttr l k' := by
  induction l with
  | nil => simp [delAttr, lookupAttr]
  | cons p t ih =>
      obtain ⟨a, w⟩ := p
      by_cases h1 : a = k <;> by_cases h2 : a = k' <;>
        simp_all [delAttr, lookupAttr, eq_comm]

theorem Item.get?_set (item : Item) (k k' : String) (v : Value) :
    (item.set k v).get? k' = if k = k' then some v else item.get? k' :=
  lookupAttr_setAttr item.attrs k k' v

theorem Item.getS_set (item : Item) (k k' : String) (v : Value) :
    (item.set k v).getS k' = if k = k' then v.pystr else item.getS k' := by
  by_cases h : k = k' <;> simp [Item.getS, Item.get?_set, h]

theorem Item.get?_del (item : Item) (k k' : String) :
    (item.del k).get? k' = if k = k' then none else item.get? k' :=
  lookupAttr_delAttr item.attrs k k'

theorem Item.get?_log_output (item : Item) (s k : String) :
    (item.log_output s).get? k = item.get? k := rfl

theorem Item.log_set (item : Item) (k : String) (v : Value) :
    (item.set k v).log = item.log := rfl

theorem Item.log_log_output (item : Item) (s : String) :
    (item.log_output s).log = item.log ++ [s] := rfl

/-- The log line produced by `notify_connection_error` for a task. -/
def connLostLine (cfg : RetryableTaskCfg) : String :=
  "Lost connection to ArchiveBot controller. Retrying " ++ cfg.name ++
    " in " ++ toString cfg.retry_delay ++ " seconds."

/-- The conclusion of claim C1 for one retryable stage: the `process` call
did not complete the item, appended exactly the connection-lost retry
notice, set `may_be_canceled` to the stage's `cancelable` policy, and
scheduled exactly one retry after `retry_delay` seconds. -/
def retryOutcome (r : ProcessResult) (cfg : RetryableTaskCfg)
    (item : Item) : Prop :=
  r.completed = false ∧
  r.item.log = item.log ++ [connLostLine cfg] ∧
  r.item.may_be_canceled = cfg.cancelable ∧
  r.scheduled = [cfg.retry_delay]

/-- C1: for each of the four retryable stages (GetItemFromQueue,
RelabelIfAborted, SetWarcFileSizeInRedis, MarkItemAsDone), when the control
call raises `ConnectionError`, `process` does not complete the item, appends
a retry notice naming the reason, the stage and the delay, sets
`may_be_canceled` to the stage's static `cancelable` policy, and schedules
exactly one retry after `retry_delay` seconds. -/
theorem C1_connection_lost_schedules_one_retry
    (pipeline_id : String) (d : Nat) (e : ConnectionError) (item : Item) :
    retryOutcome
      (GetItemFromQueue.process pipeline_id (GetItemFromQueue.mkCfg d)
        (.error e) item) (GetItemFromQueue.mkCfg d) item ∧
    retryOutcome
      (RelabelIfAborted.process RelabelIfAborted.cfg (.error e) item)
      RelabelIfAborted.cfg item ∧
    retryOutcome
      (SetWarcFileSizeInRedis.process SetWarcFileSizeInRedis.cfg
        (.error e) item) SetWarcFileSizeInRedis.cfg item ∧
    retryOutcome
      (MarkItemAsDone.process MarkItemAsDone.cfg (.error e) item)
      MarkItemAsDone.cfg item := by
  refine ⟨?_, ?_, ?_, ?_⟩ <;>
    simp [retryOutcome, connLostLine, GetItemFromQueue.process,
      RelabelIfAborted.process, SetWarcFileSizeInRedis.process,
      MarkItemAsDone.process, GetItemFromQueue.mkCfg, RelabelIfAborted.cfg,
      SetWarcFileSizeInRedis.cfg, MarkItemAsDone.cfg,
      RetryableTask.notify_connection_error, RetryableTask.notify_retry,
      RetryableTask.schedule_retry, Item.log_output]

/-- C2: when a scheduled retry fires, `retry` drops the invocation entirely
if the item was canceled in the interim (no `process` call, no further
scheduling, item untouched); otherwise it clears `may_be_canceled` and runs
`process` again on the same item. -/
theorem C2_retry_respects_cancellation (proc : Item → ProcessResult)
    (item : Item) :
    (item.canceled = true →
      RetryableTask.retry proc item = (⟨item, false, []⟩, false)) ∧
    (item.canceled = false →
      RetryableTask.retry proc item =
        (proc { item with may_be_canceled := false }, true)) := by
  constructor <;> intro h <;> simp [RetryableTask.retry, h]

/-- A canceled work item, used to instantiate the cancellation theorems. -/
def wItemCanceled : Item := ⟨[], false, true, []⟩

/-- A live (not canceled) work item for the same purpose. -/
def wItemLive : Item := ⟨[], true, false, []⟩

/-- A trivial stage body for instantiating the higher-order theorems. -/
def wProc : Item → ProcessResult := fun i => ⟨i, true, []⟩

/-- Witness for C2 at concrete items: one canceled, one live. -/
theorem C2_retry_respects_cancellation_witness :
    RetryableTask.retry wProc wItemCanceled =
      (⟨wItemCanceled, false, []⟩, false) ∧
    RetryableTask.retry wProc wItemLive =
      (wProc { wItemLive with may_be_canceled := false }, true) :=
  ⟨(C2_retry_respects_cancellation wProc wItemCanceled).1 rfl,
   (C2_retry_respects_cancellation wProc wItemLive).2 rfl⟩

/-- C10: when `GetItemFromQueue.process` ends on a retry path (no ident
reserved, or `ConnectionError`), no job attribute is written — the item's
attribute dictionary and `canceled` flag are exactly as before, the log
gains only the retry notice (nothing on the no-ident path), the item is not
completed, and one retry is scheduled. -/
theorem C10_reservation_retry_paths_leave_item_unchanged
    (pipeline_id : String) (d : Nat) (e : ConnectionError) (jd : JobData)
    (item : Item) :
    ((GetItemFromQueue.process pipeline_id (GetItemFromQueue.mkCfg d)
        (.ok (none, jd)) item).item.attrs = item.attrs ∧
     (GetItemFromQueue.process pipeline_id (GetItemFromQueue.mkCfg d)
        (.ok (none, jd)) item).item.canceled = item.canceled ∧
     (GetItemFromQueue.process pipeline_id (GetItemFromQueue.mkCfg d)
        (.ok (none, jd)) item).item.log = item.log ∧
     (GetItemFromQueue.process pipeline_id (GetItemFromQueue.mkCfg d)
        (.ok (none, jd)) item).completed = false ∧
     (GetItemFromQueue.process pipeline_id (GetItemFromQueue.mkCfg d)
        (.ok (none, jd)) item).scheduled = [d]) ∧
    ((GetItemFromQueue.process pipeline_id (GetItemFromQueue.mkCfg d)
        (.error e) item).item.attrs = item.attrs ∧
     (GetItemFromQueue.process pipeline_id (GetItemFromQueue.mkCfg d)
        (.error e) item).item.canceled = item.canceled ∧
     (GetItemFromQueue.process pipeline_id (GetItemFromQueue.mkCfg d)
        (.error e) item).item.log =
          item.log ++ [connLostLine (GetItemFromQueue.mkCfg d)] ∧
     (GetItemFromQueue.process pipeline_id (GetItemFromQueue.mkCfg d)
        (.error e) item).completed = false ∧
     (GetItemFromQueue.process pipeline_id (GetItemFromQueue.mkCfg d)
        (.error e) item).scheduled = [d]) := by
  refine ⟨⟨?_, ?_, ?_, ?_, ?_⟩, ⟨?_, ?_, ?_, ?_, ?_⟩⟩ <;>
    simp [GetItemFromQueue.process, GetItemFromQueue.mkCfg, connLostLine,
      RetryableTask.notify_connection_error, RetryableTask.notify_retry,
      RetryableTask.schedule_retry, Item.log_output]

/-! Preservation of the `may_be_canceled` field by the stages that never
touch it. -/

theorem set_target_paths_may_be_canceled (item : Item) :
    (TargetPathMixin.set_target_paths item).may_be_canceled =
      item.may_be_canceled := rfl

theorem setFetchDepth_keeps_may_be_canceled (item i' : Item)
    (h : SetFetchDepth.process item = some i') :
    i'.may_be_canceled = item.may_be_canceled := by
  unfold SetFetchDepth.process at h
  split at h
  · cases h
  · split at h <;> (simp only [Option.some.injEq] at h; subst h; rfl)

theorem preparePaths_keeps_may_be_canceled (ts : String) (item i' : Item)
    (h : PreparePaths.process ts item = some i') :
    i'.may_be_canceled = item.may_be_canceled := by
  unfold PreparePaths.process at h
  split at h
  · simp only [Option.some.injEq] at h
    subst h
    rfl
  · cases h

theorem writeInfo_keeps_may_be_canceled (item i' : Item) (w : FileWrite)
    (h : WriteInfo.process item = some (i', w)) :
    i'.may_be_canceled = item.may_be_canceled := by
  unfold WriteInfo.process at h
  split at h <;> split at h <;>
    first
      | (simp only [Option.some.injEq, Prod.mk.injEq] at h
         obtain ⟨h1, h2⟩ := h
         subst h1
         rfl)
      | cases h

theorem stopHeartbeat_keeps_may_be_canceled (item : Item) :
    (StopHeartbeat.process item).1.may_be_canceled =
      item.may_be_canceled := by
  by_cases h : item.hasKey "heartbeat" <;>
    simp [StopHeartbeat.process, h] <;> rfl

/-- C3: `cancelable` is true only for the reservation stage
(`GetItemFromQueue.__init__` is the sole constructor overriding the `False`
class default); scheduling a retry with `cancelable = false` sets
`may_be_canceled` to false; and starting from an item with
`may_be_canceled = false`, every stage keeps it false — except
`GetItemFromQueue.process`, whose result has it true exactly when that
call scheduled a reservation retry. -/
theorem C3_cancelable_only_in_reservation_wait :
    (∀ d, (GetItemFromQueue.mkCfg d).cancelable = true) ∧
    RelabelIfAborted.cfg.cancelable = false ∧
    SetWarcFileSizeInRedis.cfg.cancelable = false ∧
    MarkItemAsDone.cfg.cancelable = false ∧
    (∀ (cfg : RetryableTaskCfg) (item : Item), cfg.cancelable = false →
      (RetryableTask.schedule_retry cfg item).1.may_be_canceled = false) ∧
    (∀ item : Item, item.may_be_canceled = false →
      (∀ (pid : String) (d : Nat)
          (reserved : Except ConnectionError (Option String × JobData)),
        (GetItemFromQueue.process pid (GetItemFromQueue.mkCfg d) reserved
            item).item.may_be_canceled = true ↔
          (GetItemFromQueue.process pid (GetItemFromQueue.mkCfg d) reserved
            item).scheduled ≠ []) ∧
      (∀ outcome : Except ConnectionError Bool,
        (RelabelIfAborted.process RelabelIfAborted.cfg outcome
          item).item.may_be_canceled = false) ∧
      (∀ call : Except ConnectionError Unit,
        (SetWarcFileSizeInRedis.process SetWarcFileSizeInRedis.cfg call
          item).item.may_be_canceled = false) ∧
      (∀ call : Except ConnectionError Unit,
        (MarkItemAsDone.process MarkItemAsDone.cfg call
          item).item.may_be_canceled = false) ∧
      (∀ i' : Item, SetFetchDepth.process item = some i' →
        i'.may_be_canceled = false) ∧
      (∀ (ts : String) (i' : Item), PreparePaths.process ts item = some i' →
        i'.may_be_canceled = false) ∧
      (∀ (i' : Item) (w : FileWrite), WriteInfo.process item = some (i', w) →
        i'.may_be_canceled = false) ∧
      (StopHeartbeat.process item).1.may_be_canceled = false) := by
  refine ⟨fun d => rfl, rfl, rfl, rfl, ?_, ?_⟩
  · intro cfg item hc
    simp [RetryableTask.schedule_retry, hc]
  · intro item hitem
    refine ⟨?_, ?_, ?_, ?_, ?_, ?_, ?_, ?_⟩
    · intro pid d reserved
      rcases reserved with e | ⟨oid, jd⟩
      · simp [GetItemFromQueue.process, RetryableTask.schedule_retry,
          RetryableTask.notify_connection_error, RetryableTask.notify_retry,
          Item.log_output, GetItemFromQueue.mkCfg]
      · cases oid with
        | none =>
            simp [GetItemFromQueue.process, RetryableTask.schedule_retry,
              GetItemFromQueue.mkCfg]
        | some ident =>
            simp [GetItemFromQueue.process, Item.log_output, Item.set,
              hitem]
    · intro outcome
      rcases outcome with e | b
      · simp [RelabelIfAborted.process, RetryableTask.schedule_retry,
          RetryableTask.notify_connection_error, RetryableTask.notify_retry,
          Item.log_output, RelabelIfAborted.cfg]
      · cases b <;>
          simp [RelabelIfAborted.process, Item.log_output, Item.set,
            TargetPathMixin.set_target_paths, hitem]
    · intro call
      rcases call with e | u
      · simp [SetWarcFileSizeInRedis.process, RetryableTask.schedule_retry,
          RetryableTask.notify_connection_error, RetryableTask.notify_retry,
          Item.log_output, SetWarcFileSizeInRedis.cfg]
      · simp [SetWarcFileSizeInRedis.process, hitem]
    · intro call
      rcases call with e | u
      · simp [MarkItemAsDone.process, RetryableTask.schedule_retry,
          RetryableTask.notify_connection_error, RetryableTask.notify_retry,
          Item.log_output, MarkItemAsDone.cfg]
      · simp [MarkItemAsDone.process, hitem]
    · intro i' h
      rw [setFetchDepth_keeps_may_be_canceled item i' h]
      exact hitem
    · intro ts i' h
      rw [preparePaths_keeps_may_be_canceled ts item i' h]
      exact hitem
    · intro i' w h
      rw [writeInfo_keeps_may_be_canceled item i' w h]
      exact hitem
    · rw [stopHeartbeat_keeps_may_be_canceled item]
      exact hitem

/-- An idle item (not canceled, not cancelable) carrying a job, used to
instantiate the invariant theorems at a concrete state. -/
def wItemIdle : Item := ⟨[("fetch_depth", Value.vstr "5")], false, false, []⟩

/-- Witness for C3: at a concrete idle item, a `cancelable = false` retry
leaves `may_be_canceled` false, and a reservation retry makes it true. -/
theorem C3_cancelable_only_in_reservation_wait_witness :
    (RetryableTask.schedule_retry SetWarcFileSizeInRedis.cfg
      wItemIdle).1.may_be_canceled = false ∧
    (GetItemFromQueue.process "p" (GetItemFromQueue.mkCfg 7)
      (Except.ok (none, ([] : JobData))) wItemIdle).item.may_be_canceled =
        true :=
  ⟨C3_cancelable_only_in_reservation_wait.2.2.2.2.1
      SetWarcFileSizeInRedis.cfg wItemIdle rfl,
   ((C3_cancelable_only_in_reservation_wait.2.2.2.2.2 wItemIdle rfl).1
      "p" 7 (Except.ok (none, []))).mpr (by decide)⟩

/-- C4 counterexample: at a concrete input where the job descriptor carries
`pipeline_id = "p2"` but the stage was constructed with pipeline id
`"p1"`, the code stores `"p1"` — `item['pipeline_id'] = self.pipeline_id` —
so the claim that every listed attribute (including `pipeline_id`) is
populated from the descriptor is false. -/
theorem C4_counterexample :
    (GetItemFromQueue.process "p1" (GetItemFromQueue.mkCfg 5)
        (Except.ok (some "job1", [("pipeline_id", Value.vstr "p2")]))
        ⟨[], false, false, []⟩).item.get? "pipeline_id" =
      some (Value.vstr "p1") ∧
    JobData.get [("pipeline_id", Value.vstr "p2")] "pipeline_id" =
      Value.vstr "p2" ∧
    Value.vstr "p1" ≠ Value.vstr "p2" := by
  refine ⟨rfl, rfl, ?_⟩
  intro h
  injection h with h'
  exact absurd h' (by decide)

/-- C4 (amended): for every `GetItemFromQueue.process` invocation that does
not raise: if `reserve_job` returns an absent ident, exactly one retry is
scheduled and the item is not completed; if it returns an ident with a job
descriptor, the job attributes are populated — `ident` from the returned
ident, `pipeline_id` from the stage's configured pipeline id, and the other
seven from the descriptor — receipt is logged, and the item is
completed. -/
theorem C4_reservation_outcomes (pid : String) (d : Nat) (ident : String)
    (jd : JobData) (item : Item) :
    ((GetItemFromQueue.process pid (GetItemFromQueue.mkCfg d)
        (.ok (none, jd)) item).scheduled = [d] ∧
     (GetItemFromQueue.process pid (GetItemFromQueue.mkCfg d)
        (.ok (none, jd)) item).completed = false) ∧
    ((GetItemFromQueue.process pid (GetItemFromQueue.mkCfg d)
        (.ok (some ident, jd)) item).item.get? "fetch_depth" =
          some (jd.get "fetch_depth") ∧
     (GetItemFromQueue.process pid (GetItemFromQueue.mkCfg d)
        (.ok (some ident, jd)) item).item.get? "ident" =
          some (Value.vstr ident) ∧
     (GetItemFromQueue.process pid (GetItemFromQueue.mkCfg d)
        (.ok (some ident, jd)) item).item.get? "log_key" =
          some (jd.get "log_key") ∧
     (GetItemFromQueue.process pid (GetItemFromQueue.mkCfg d)
        (.ok (some ident, jd)) item).item.get? "pipeline_id" =
          some (Value.vstr pid) ∧
     (GetItemFromQueue.process pid (GetItemFromQueue.mkCfg d)
        (.ok (some ident, jd)) item).item.get? "queued_at" =
          some (jd.get "queued_at") ∧
     (GetItemFromQueue.process pid (GetItemFromQueue.mkCfg d)
        (.ok (some ident, jd)) item).item.get? "slug" =
          some (jd.get "slug") ∧
     (GetItemFromQueue.process pid (GetItemFromQueue.mkCfg d)
        (.ok (some ident, jd)) item).item.get? "started_by" =
          some (jd.get "started_by") ∧
     (GetItemFromQueue.process pid (GetItemFromQueue.mkCfg d)
        (.ok (some ident, jd)) item).item.get? "started_in" =
          some (jd.get "started_in") ∧
     (GetItemFromQueue.process pid (GetItemFromQueue.mkCfg d)
        (.ok (some ident, jd)) item).item.get? "url" =
          some (jd.get "url") ∧
     (GetItemFromQueue.process pid (GetItemFromQueue.mkCfg d)
        (.ok (some ident, jd)) item).item.log =
          item.log ++ ["Received item " ++ ident ++ "."] ∧
     (GetItemFromQueue.process pid (GetItemFromQueue.mkCfg d)
        (.ok (some ident, jd)) item).completed = true ∧
     (GetItemFromQueue.process pid (GetItemFromQueue.mkCfg d)
        (.ok (some ident, jd)) item).scheduled = []) := by
  refine ⟨⟨?_, ?_⟩, ?_, ?_, ?_, ?_, ?_, ?_, ?_, ?_, ?_, ?_, ?_, ?_⟩ <;>
    simp [GetItemFromQueue.process, RetryableTask.schedule_retry,
      GetItemFromQueue.mkCfg, Item.get?_log_output, Item.get?_set,
      Item.log_log_output, Item.log_set]

/-- C5: when `is_aborted` reports true, `RelabelIfAborted.process` sets the
`aborted` flag, appends `-aborted` to `warc_file_base`, recomputes the two
target paths from the new base, completes the item, and leaves every other
attribute (in particular `source_warc_file` and `source_info_file`)
unchanged. -/
theorem C5_relabel_aborted_frame (item : Item) (base ddir : String)
    (hbase : item.get? "warc_file_base" = some (Value.vstr base))
    (hdir : item.get? "data_dir" = some (Value.vstr ddir)) :
    (RelabelIfAborted.process RelabelIfAborted.cfg (.ok true)
        item).item.get? "aborted" = some (Value.vbool true) ∧
    (RelabelIfAborted.process RelabelIfAborted.cfg (.ok true)
        item).item.get? "warc_file_base" =
      some (Value.vstr (base ++ "-aborted")) ∧
    (RelabelIfAborted.process RelabelIfAborted.cfg (.ok true)
        item).item.get? "target_warc_file" =
      some (Value.vstr (ddir ++ "/" ++ base ++ "-aborted" ++ ".warc.gz")) ∧
    (RelabelIfAborted.process RelabelIfAborted.cfg (.ok true)
        item).item.get? "target_info_file" =
      some (Value.vstr (ddir ++ "/" ++ base ++ "-aborted" ++ ".json")) ∧
    (∀ k : String, k ≠ "aborted" → k ≠ "warc_file_base" →
      k ≠ "target_warc_file" → k ≠ "target_info_file" →
      (RelabelIfAborted.process RelabelIfAborted.cfg (.ok true)
        item).item.get? k = item.get? k) ∧
    (RelabelIfAborted.process RelabelIfAborted.cfg (.ok true)
        item).item.get? "source_warc_file" = item.get? "source_warc_file" ∧
    (RelabelIfAborted.process RelabelIfAborted.cfg (.ok true)
        item).item.get? "source_info_file" = item.get? "source_info_file" ∧
    (RelabelIfAborted.process RelabelIfAborted.cfg (.ok true)
        item).completed = true := by
  refine ⟨?_, ?_, ?_, ?_, ?_, ?_, ?_, ?_⟩
  pick_goal 5
  · intro k h1 h2 h3 h4
    simp [RelabelIfAborted.process, TargetPathMixin.set_target_paths,
      Item.get?_log_output, Item.get?_set, Ne.symm h1, Ne.symm h2,
      Ne.symm h3, Ne.symm h4]
  all_goals
    simp [RelabelIfAborted.process, TargetPathMixin.set_target_paths,
      Item.get?_log_output, Item.get?_set, Item.getS_set, Item.getS,
      hbase, hdir, Value.pystr, String.append_assoc]

/-- A concrete item carrying derived paths, for the relabeling witness. -/
def wItemPaths : Item :=
  ⟨[("data_dir", Value.vstr "/data"),
    ("warc_file_base", Value.vstr "example-20200101-000000-abc12"),
    ("source_warc_file", Value.vstr "/data/abc/example.warc.gz")],
   false, false, []⟩

/-- Witness for C5 at a concrete item: the base gains the suffix and the
source path is untouched. -/
theorem C5_relabel_aborted_frame_witness :
    (RelabelIfAborted.process RelabelIfAborted.cfg (.ok true)
        wItemPaths).item.get? "warc_file_base" =
      some (Value.vstr ("example-20200101-000000-abc12" ++ "-aborted")) ∧
    (RelabelIfAborted.process RelabelIfAborted.cfg (.ok true)
        wItemPaths).item.get? "source_warc_file" =
      wItemPaths.get? "source_warc_file" :=
  ⟨(C5_relabel_aborted_frame wItemPaths "example-20200101-000000-abc12"
      "/data" rfl rfl).2.1,
   (C5_relabel_aborted_frame wItemPaths "example-20200101-000000-abc12"
      "/data" rfl rfl).2.2.2.2.2.1⟩

/-- C6: `PreparePaths.process` derives the working directory
`<data_dir>/<ident>`, the base name `<slug>-<timestamp>-<ident[0:5]>`,
source warc/info paths and the cookie jar under the working directory, and
target warc/info paths directly under `data_dir` with extensions `.warc.gz`
and `.json`. -/
theorem C6_prepare_paths_layout (ts ddir idn slug : String) (item : Item)
    (hd : item.get? "data_dir" = some (Value.vstr ddir))
    (hi : item.get? "ident" = some (Value.vstr idn))
    (hs : item.get? "slug" = some (Value.vstr slug)) :
    ∃ i', PreparePaths.process ts item = some i' ∧
      i'.get? "item_dir" = some (Value.vstr (ddir ++ "/" ++ idn)) ∧
      i'.get? "warc_file_base" =
        some (Value.vstr (slug ++ "-" ++ ts ++ "-" ++ idn.take 5)) ∧
      i'.get? "source_warc_file" =
        some (Value.vstr (ddir ++ "/" ++ idn ++ "/" ++ slug ++ "-" ++ ts ++
          "-" ++ idn.take 5 ++ ".warc.gz")) ∧
      i'.get? "source_info_file" =
        some (Value.vstr (ddir ++ "/" ++ idn ++ "/" ++ slug ++ "-" ++ ts ++
          "-" ++ idn.take 5 ++ ".json")) ∧
      i'.get? "cookie_jar" =
        some (Value.vstr (ddir ++ "/" ++ idn ++ "/cookies.txt")) ∧
      i'.get? "target_warc_file" =
        some (Value.vstr (ddir ++ "/" ++ slug ++ "-" ++ ts ++ "-" ++
          idn.take 5 ++ ".warc.gz")) ∧
      i'.get? "target_info_file" =
        some (Value.vstr (ddir ++ "/" ++ slug ++ "-" ++ ts ++ "-" ++
          idn.take 5 ++ ".json")) := by
  unfold PreparePaths.process
  rw [hi, hs]
  refine ⟨_, rfl, ?_, ?_, ?_, ?_, ?_, ?_, ?_⟩ <;>
    simp [TargetPathMixin.set_target_paths, Item.get?_set, Item.getS_set,
      Item.getS, hd, hi, hs, Value.pystr, String.append_assoc]

/-- A concrete freshly reserved item, for the path-derivation witness. -/
def wItemJob : Item :=
  ⟨[("data_dir", Value.vstr "/data"), ("ident", Value.vstr "abc123xyz"),
    ("slug", Value.vstr "example")], false, false, []⟩

/-- Witness for C6 at a concrete item and timestamp. -/
theorem C6_prepare_paths_layout_witness :
    ∃ i', PreparePaths.process "20200102-030405" wItemJob = some i' ∧
      i'.get? "item_dir" =
        some (Value.vstr ("/data" ++ "/" ++ "abc123xyz")) ∧
      i'.get? "target_warc_file" =
        some (Value.vstr ("/data" ++ "/" ++ "example" ++ "-" ++
          "20200102-030405" ++ "-" ++ ("abc123xyz").take 5 ++
          ".warc.gz")) := by
  obtain ⟨i', h1, h2, h3, h4, h5, h6, h7, h8⟩ :=
    C6_prepare_paths_layout "20200102-030405" "/data" "abc123xyz" "example"
      wItemJob rfl rfl rfl
  exact ⟨i', h1, h2, h7⟩

/-- C7: `WriteInfo.process` writes to `source_info_file` a record whose
key set is exactly the seven keys `aborted`, `fetch_depth`, `pipeline_id`,
`queued_at`, `started_by`, `started_in`, `url`, with `aborted` defaulting
to false when no earlier stage set the flag; the record is also stored at
the item's `info` key. -/
theorem C7_write_info_record (item : Item)
    (fd pid qa sb si u pathv : Value)
    (hfd : item.get? "fetch_depth" = some fd)
    (hpid : item.get? "pipeline_id" = some pid)
    (hqa : item.get? "queued_at" = some qa)
    (hsb : item.get? "started_by" = some sb)
    (hsi : item.get? "started_in" = some si)
    (hu : item.get? "url" = some u)
    (hsif : item.get? "source_info_file" = some pathv) :
    ∃ i' w, WriteInfo.process item = some (i', w) ∧
      w.record.map Prod.fst =
        ["aborted", "fetch_depth", "pipeline_id", "queued_at",
         "started_by", "started_in", "url"] ∧
      w.path = pathv.pystr ∧
      (item.get? "aborted" = none →
        lookupAttr w.record "aborted" = some (Value.vbool false)) ∧
      i'.get? "info" = some (Value.vdict w.record) := by
  cases hab : item.get? "aborted" with
  | none =>
      unfold WriteInfo.process
      rw [hab, hfd, hpid, hqa, hsb, hsi, hu, hsif]
      exact ⟨_, _, rfl, rfl, rfl, fun _ => rfl, by simp [Item.get?_set]⟩
  | some v =>
      unfold WriteInfo.process
      rw [hab, hfd, hpid, hqa, hsb, hsi, hu, hsif]
      refine ⟨_, _, rfl, rfl, rfl, ?_, by simp [Item.get?_set]⟩
      intro hnone
      exact absurd hnone (by simp)

/-- A concrete item just before metadata finalization, with no `aborted`
flag, for the C7 witness. -/
def wItemFinal : Item :=
  ⟨[("fetch_depth", Value.vstr "5"), ("pipeline_id", Value.vstr "p"),
    ("queued_at", Value.vstr "123"), ("started_by", Value.vstr "u"),
    ("started_in", Value.vstr "chan"), ("url", Value.vstr "http://x"),
    ("source_info_file", Value.vstr "/data/j/f.json")], false, false, []⟩

/-- Witness for C7 at a concrete item whose `aborted` flag was never
set. -/
theorem C7_write_info_record_witness :
    ∃ i' w, WriteInfo.process wItemFinal = some (i', w) ∧
      w.record.map Prod.fst =
        ["aborted", "fetch_depth", "pipeline_id", "queued_at",
         "started_by", "started_in", "url"] ∧
      lookupAttr w.record "aborted" = some (Value.vbool false) := by
  obtain ⟨i', w, h1, h2, h3, h4, h5⟩ :=
    C7_write_info_record wItemFinal (Value.vstr "5") (Value.vstr "p")
      (Value.vstr "123") (Value.vstr "u") (Value.vstr "chan")
      (Value.vstr "http://x") (Value.vstr "/data/j/f.json")
      rfl rfl rfl rfl rfl rfl rfl
  exact ⟨i', w, h1, h2, h4 rfl⟩

/-- C8: `SetFetchDepth.process` maps the sentinel `fetch_depth` value
`"shallow"` to the option triple `("", "", "")` and any other value `d` to
`("--recursive", "--level", d)`. -/
theorem C8_fetch_depth_translation (item : Item) (v : Value)
    (h : item.get? "fetch_depth" = some v) :
    (v.isStrEq "shallow" = true →
      ∃ i', SetFetchDepth.process item = some i' ∧
        i'.get? "recursive" = some (Value.vstr "") ∧
        i'.get? "level" = some (Value.vstr "") ∧
        i'.get? "depth" = some (Value.vstr "")) ∧
    (v.isStrEq "shallow" = false →
      ∃ i', SetFetchDepth.process item = some i' ∧
        i'.get? "recursive" = some (Value.vstr "--recursive") ∧
        i'.get? "level" = some (Value.vstr "--level") ∧
        i'.get? "depth" = some v) := by
  unfold SetFetchDepth.process
  rw [h]
  refine ⟨fun hs => ?_, fun hs => ?_⟩ <;>
    simp only [hs, if_true, if_false, Bool.false_eq_true] <;>
    exact ⟨_, rfl, by simp [Item.get?_set], by simp [Item.get?_set],
      by simp [Item.get?_set]⟩

/-- Witness for C8: input `"5"` yields
`("--recursive", "--level", "5")`. -/
theorem C8_fetch_depth_translation_witness :
    ∃ i', SetFetchDepth.process wItemIdle = some i' ∧
      i'.get? "recursive" = some (Value.vstr "--recursive") ∧
      i'.get? "level" = some (Value.vstr "--level") ∧
      i'.get? "depth" = some (Value.vstr "5") :=
  (C8_fetch_depth_translation wItemIdle (Value.vstr "5") rfl).2 rfl

/-- C9: `StopHeartbeat.process` is total — it never fails on a missing
handle.  With a handle present it stops the timer and removes the handle;
without one it only appends a warning to the log and the item proceeds
otherwise unchanged. -/
theorem C9_stop_heartbeat_total (item : Item) :
    (item.hasKey "heartbeat" = true →
      StopHeartbeat.process item = (item.del "heartbeat", true) ∧
      (StopHeartbeat.process item).1.get? "heartbeat" = none ∧
      (StopHeartbeat.process item).1.log = item.log) ∧
    (item.hasKey "heartbeat" = false →
      StopHeartbeat.process item =
        (item.log_output "Warning: couldn't find a heartbeat to stop",
          false) ∧
      (StopHeartbeat.process item).1.attrs = item.attrs ∧
      (StopHeartbeat.process item).1.log =
        item.log ++ ["Warning: couldn't find a heartbeat to stop"]) := by
  constructor <;> intro h <;> refine ⟨?_, ?_, ?_⟩ <;>
    simp [StopHeartbeat.process, h, Item.get?_del, Item.log_output,
      Item.get?, Item.del, lookupAttr_delAttr]

/-- A concrete item holding a heartbeat timer handle. -/
def wItemBeating : Item := ⟨[("heartbeat", Value.vtimer 0)], false, false, []⟩

/-- Witness for C9: one item with a handle, one without. -/
theorem C9_stop_heartbeat_total_witness :
    StopHeartbeat.process wItemBeating =
      (wItemBeating.del "heartbeat", true) ∧
    StopHeartbeat.process wItemIdle =
      (wItemIdle.log_output "Warning: couldn't find a heartbeat to stop",
        false) :=
  ⟨((C9_stop_heartbeat_total wItemBeating).1 rfl).1,
   ((C9_stop_heartbeat_total wItemIdle).2 rfl).1⟩

end ArchiveBot
